import Mathlib

/-!
Verification development for the agent conversation and knowledge-gating
engine (Go backend).  Go strings are modelled as `List Char` (all inputs the
claims touch are ASCII, so byte indices and rune indices coincide), Go's
`map[string]bool` sets as lists of keys, and the stateful handlers as pure
state-passing functions.  Every definition is translated from the repository's
source; the file states and proves the frozen claims about them.
-/

/-- A Go string, modelled as its list of characters (ASCII in all inputs of
interest, so Go byte indices equal character indices). -/
abbrev GoStr := List Char

/-- `unicode.IsSpace` restricted to the Latin-1 range, which is how Go's
`strings.TrimSpace` classifies the characters appearing in this code base
(space, tab, newline, vertical tab, form feed, carriage return, NEL, NBSP). -/
def isGoSpace (c : Char) : Bool :=
  c = ' ' || c = '\t' || c = '\n' || (c.val = 11) || (c.val = 12) ||
  (c.val = 13) || (c.val = 0x85) || (c.val = 0xA0)

/-- Go `strings.TrimSpace`: drop leading and trailing white space. -/
def goTrimSpace (s : GoStr) : GoStr :=
  ((s.dropWhile isGoSpace).reverse.dropWhile isGoSpace).reverse

/-- Go `strings.ToLower` on ASCII text: lower-case each character. -/
def goToLower (s : GoStr) : GoStr :=
  s.map Char.toLower

/-- Go `strings.Contains s sub`: `sub` occurs as a contiguous substring of
`s` (the empty string is contained in every string). -/
def goContains (s sub : GoStr) : Bool :=
  match s with
  | [] => sub.isEmpty
  | _ :: rest => sub.isPrefixOf s || goContains rest sub

/-- Index of the first occurrence of `sub` in `s`, if any (character index;
equal to Go's byte index on ASCII input). -/
def goIndexAux (s sub : GoStr) : Option Nat :=
  match s with
  | [] => if sub.isEmpty then some 0 else none
  | _ :: rest =>
    if sub.isPrefixOf s then some 0
    else (goIndexAux rest sub).map (· + 1)

/-- Go `strings.Index`: first index of `sub` in `s`, or `-1`. -/
def goIndex (s sub : GoStr) : Int :=
  match goIndexAux s sub with
  | some n => (n : Int)
  | none => -1

-- Concrete behaviour of the string embedding on small inputs.
example : goContains "meet me at the secret lab".toList "meet me at".toList = true := by decide
example : goContains "abc".toList "".toList = true := by decide
example : goIndex "meet me at the secret lab".toList "secret lab".toList = 15 := by decide
example : goTrimSpace "  hi  ".toList = "hi".toList := by decide
example : goTrimSpace "   ".toList = [] := by decide

theorem goContains_iff_occurs (s sub : GoStr) :
    goContains s sub = true ↔ sub <:+: s := by
  induction s with
  | nil =>
    simp [goContains, List.isEmpty_iff]
  | cons a rest ih =>
    simp [goContains, List.isPrefixOf_iff_prefix, ih, List.infix_cons_iff]

theorem goContains_toLower (s sub : GoStr) (h : goContains s sub = true) :
    goContains (goToLower s) (goToLower sub) = true := by
  rw [goContains_iff_occurs] at h ⊢
  exact h.map Char.toLower

/-- `models.Location` (`models/story.go`): the fields the detector and the
message pipeline read. -/
structure Location where
  ID : GoStr
  LocationName : GoStr
  VisualDescription : GoStr
deriving DecidableEq, Repr

/-- `models.Evidence` as used by the message handler when building the
evidence-presentation block. -/
structure Evidence where
  Title : GoStr
  Description : GoStr
  VisualDescription : GoStr
  ImageURL : GoStr
deriving DecidableEq, Repr

/-- `agent.Agent`: the fields the knowledge-gating logic touches.  The Go
`map[string]bool` reveal trackers are modelled by their key sets, kept as
lists of keys in insertion order. -/
structure Agent where
  Personality : GoStr
  HoldsEvidenceIDs : List GoStr
  KnowsLocationIDs : List GoStr
  RevealedEvidenceIDs : List GoStr
  RevealedLocationIDs : List GoStr
deriving DecidableEq, Repr

/-- The structured generator output (`MessageResponse` in `handlers`). -/
structure MessageResponse where
  Reply : GoStr
  RevealedEvidences : List GoStr
  RevealedLocations : List GoStr
deriving DecidableEq, Repr

/-- `validateRevealedItems` (`handlers/message.go` lines 207-220 and the
identical copies in the other handler iterations): build the membership set
of `allowed` and keep exactly the candidates found in it, in order. -/
def validateRevealedItems (revealed allowed : List GoStr) : List GoStr :=
  revealed.filter (fun id => allowed.contains id)

/-- Setting a key in a Go `map[string]bool` to `true`: on the key-set model,
insert the key if absent. -/
def mapSetTrue (m : List GoStr) (k : GoStr) : List GoStr :=
  if m.contains k then m else m ++ [k]

/-- `updateAgentTracking` (`handlers/message.go` lines 223-230 / 1753-1760):
record each validated evidence and location ID in the agent's reveal maps. -/
def updateAgentTracking (a : Agent) (evidences locations : List GoStr) : Agent :=
  { a with
    RevealedEvidenceIDs := evidences.foldl mapSetTrue a.RevealedEvidenceIDs
    RevealedLocationIDs := locations.foldl mapSetTrue a.RevealedLocationIDs }

theorem mem_dropWhile_of_not (p : Char → Bool) (s : GoStr) (c : Char)
    (hc : c ∈ s) (hn : p c = false) : c ∈ s.dropWhile p := by
  have hsplit := List.takeWhile_append_dropWhile (p := p) (l := s)
  rw [← hsplit] at hc
  rcases List.mem_append.mp hc with h | h
  · have := List.mem_takeWhile_imp h
    rw [hn] at this
    exact absurd this (by simp)
  · exact h

theorem goTrimSpace_ne_nil (s : GoStr) (c : Char)
    (hc : c ∈ s) (hn : isGoSpace c = false) : goTrimSpace s ≠ [] := by
  unfold goTrimSpace
  intro h
  rw [List.reverse_eq_nil_iff, List.dropWhile_eq_nil_iff] at h
  have h1 : c ∈ s.dropWhile isGoSpace := mem_dropWhile_of_not _ _ _ hc hn
  have := h c (List.mem_reverse.mpr h1)
  rw [hn] at this
  exact absurd this (by simp)

/-! ## Location-reveal detector (`handlers/location_detector.go`) -/

/-- `withinProximity` (`location_detector.go` lines 151-165): both strings
occur in `text` and their first indices differ by at most `maxDistance`. -/
def withinProximity (text str1 str2 : GoStr) (maxDistance : Int) : Bool :=
  let idx1 := goIndex text str1
  let idx2 := goIndex text str2
  if idx1 = -1 || idx2 = -1 then false
  else
    let distance := idx2 - idx1
    let distance := if distance < 0 then -distance else distance
    distance ≤ maxDistance

/-- `uniqueStrings` (`location_detector.go` lines 168-180): drop duplicates,
keeping first occurrences in order (the `seen` map is the accumulator). -/
def uniqueStringsAux (seen : List GoStr) : List GoStr → List GoStr
  | [] => []
  | s :: rest =>
    if seen.contains s then uniqueStringsAux seen rest
    else s :: uniqueStringsAux (s :: seen) rest

/-- `uniqueStrings` entry point. -/
def uniqueStrings (input : List GoStr) : List GoStr :=
  uniqueStringsAux [] input

/-- The `revealPhrases` vocabulary (`location_detector.go` lines 28-47). -/
def revealPhrases : List GoStr :=
  [ "meet me at".toList, "find me at".toList, "i'll be at".toList,
    "come to the".toList, "go to the".toList, "head to the".toList,
    "it's at the".toList, "located at".toList, "you'll find it at".toList,
    "i'll show you to".toList, "i'll take you to".toList,
    "follow me to".toList, "let's go to".toList, "i can get you into".toList,
    "i have access to".toList, "i know a way into".toList,
    "the key to the".toList, "the entrance to".toList ]

/-- The `actionPatterns` regular expressions (`location_detector.go` lines
50-58).  Every pattern has the shape `\[A.*B.*\]`; it is stored here as the
literal pieces `("[" ++ A, B, "]")` between the `.*` gaps. -/
def actionPatterns : List (GoStr × GoStr) :=
  [ ("[hands over".toList, "key".toList),
    ("[gives".toList, "access".toList),
    ("[shows".toList, "map".toList),
    ("[draws".toList, "map".toList),
    ("[writes".toList, "address".toList),
    ("[points".toList, "direction".toList),
    ("[unlocks".toList, "door".toList) ]

/-- `meetingIndicators` (`location_detector.go` lines 103-105). -/
def meetingIndicators : List GoStr :=
  [ "see you".toList, "find you".toList, "waiting".toList, "meet".toList,
    "rendezvous".toList, "gather".toList ]

/-- `timeIndicators` (`location_detector.go` lines 107-110). -/
def timeIndicators : List GoStr :=
  [ "tonight".toList, "tomorrow".toList, "later".toList, "soon".toList,
    "at midnight".toList, "at dawn".toList, "in an hour".toList,
    "after dark".toList ]

/-- `specificPatterns` for one location name (`location_detector.go` lines
88-99): each entry is a list of terms that must all occur in the dialogue. -/
def specificPatterns (locationNameLower : GoStr) : List (List GoStr) :=
  [ [locationNameLower, "here's how to get there".toList],
    [locationNameLower, "i'll let you in".toList],
    [locationNameLower, "you have my permission".toList],
    [locationNameLower, "tell them i sent you".toList],
    [locationNameLower, "use this to get in".toList],
    ["password".toList, locationNameLower],
    ["code".toList, locationNameLower],
    [locationNameLower, "is open to you".toList],
    [locationNameLower, "expecting you".toList],
    ["arranged access".toList, locationNameLower] ]

/-- The literal pieces of a pattern occur in `line` in order, left to right
and without overlap. -/
def containsInOrder (line : GoStr) : List GoStr → Bool
  | [] => true
  | p :: ps =>
    match goIndexAux line p with
    | none => false
    | some i => containsInOrder (line.drop (i + p.length)) ps

/-- Split a string at newline characters. -/
def splitNewlines (s : GoStr) : List GoStr :=
  s.splitOn '\n'

/-- Go `regexp.MustCompile("\\[A.*B.*\\]").MatchString text`, for the action
patterns above.  Because `.` in a Go regexp does not match a newline and none
of the literal pieces contains one, the pattern matches exactly when some
single line of `text` contains `"[" ++ A`, then `B`, then `"]"`, in order. -/
def matchesActionPattern (text : GoStr) (p : GoStr × GoStr) : Bool :=
  (splitNewlines text).any fun line =>
    containsInOrder line [p.1, p.2, "]".toList]

/-- The body of the per-location loop of `DetectRevealedLocations`
(`location_detector.go` lines 61-143).  Each of the four pattern groups
appends the location's ID at most once (a `break` follows the first hit in a
group), and the groups run in source order: reveal phrases with the proximity
test, bracketed action patterns, the meeting-plus-time co-occurrence test,
and the specific dialogue patterns. -/
def detectForLocation (dialogueLower : GoStr) (location : Location) : List GoStr :=
  let locationNameLower := goToLower location.LocationName
  let phraseHit := revealPhrases.any fun phrase =>
    goContains dialogueLower phrase && goContains dialogueLower locationNameLower &&
      withinProximity dialogueLower phrase locationNameLower 50
  let actionHit := actionPatterns.any fun p =>
    matchesActionPattern dialogueLower p && goContains dialogueLower locationNameLower
  let meetingHit := meetingIndicators.any fun meeting =>
    timeIndicators.any fun time =>
      goContains dialogueLower meeting && goContains dialogueLower time &&
        goContains dialogueLower locationNameLower
  let specificHit := (specificPatterns locationNameLower).any fun pat =>
    pat.all fun term => goContains dialogueLower term
  (if phraseHit then [location.ID] else []) ++
    (if actionHit then [location.ID] else []) ++
    (if meetingHit then [location.ID] else []) ++
    (if specificHit then [location.ID] else [])

/-- `DetectRevealedLocations` (`location_detector.go` lines 23-148): scan the
lower-cased dialogue against every story location and deduplicate the
collected IDs. -/
def DetectRevealedLocations (locations : List Location) (dialogue : GoStr) : List GoStr :=
  let dialogueLower := goToLower dialogue
  uniqueStrings ((locations.map (detectForLocation dialogueLower)).flatten)

/-- The mock story of `location_detector_test.go` lines 11-20. -/
def mockLocations : List Location :=
  [ ⟨"loc_1".toList, "Secret Lab".toList, []⟩,
    ⟨"loc_2".toList, "Captain's Office".toList, []⟩,
    ⟨"loc_3".toList, "Engine Room".toList, []⟩,
    ⟨"loc_4".toList, "The Docks".toList, []⟩ ]

example :
    DetectRevealedLocations mockLocations
      "Meet me at the secret lab tonight.".toList = ["loc_1".toList] := by decide

/-! ## Parse retry and personality fallback (`part_006` lines 175-198, 307-320) -/

/-- `generateFallbackResponse` (`part_006` lines 308-320): a deterministic
canned line keyed on keywords of the lower-cased personality. -/
def generateFallbackResponse (a : Agent) : GoStr :=
  let personality := goToLower a.Personality
  if goContains personality "nervous".toList then
    "I-I'm sorry, I'm having trouble understanding... Could you repeat that?".toList
  else if goContains personality "arrogant".toList then
    "Speak clearly. I don't have time for your mumbling.".toList
  else if goContains personality "professional".toList then
    "I apologize, could you please rephrase your question?".toList
  else
    "I'm having trouble understanding. Could you rephrase that?".toList

/-- The parse-retry-fallback stage of the `part_006` message handler (lines
175-198).  `primary` is the result of decoding the generator's first output
(`none` = JSON parse failure) and `retry` the result of
`retryWithJSONFormat` (`none` = the retry's network call or parse also
failed).  The stage always produces a response: an unrecoverable parse
failure yields the personality fallback with empty reveal lists, never an
error. -/
def parseWithRetryStage (a : Agent) (primary retry : Option MessageResponse) :
    MessageResponse :=
  match primary with
  | some r => r
  | none =>
    match retry with
    | some r => r
    | none =>
      { Reply := generateFallbackResponse a
        RevealedEvidences := []
        RevealedLocations := [] }

/-! ## The reveal-validation stage of the two pipeline iterations -/

/-- The validation-and-tracking stage of the current `MessageHandler`
(`handlers/message.go` lines 1700-1703): both reveal lists are filtered by
`validateRevealedItems` against the agent's capability lists before
`updateAgentTracking` records them.  Returns the updated agent together with
the validated lists placed in the response. -/
def validatedTrackingStage (a : Agent) (evidenceIDs locationIDs : List GoStr) :
    Agent × List GoStr × List GoStr :=
  let evs := validateRevealedItems evidenceIDs a.HoldsEvidenceIDs
  let locs := validateRevealedItems locationIDs a.KnowsLocationIDs
  (updateAgentTracking a evs locs, evs, locs)

/-- The validation-and-tracking stage of the `part_006` handler iteration
(lines 200-244): evidence is filtered against `HoldsEvidenceIDs`, but the
location list is replaced by the location detector's output on the reply text
(built over all story locations) and passed to `updateAgentTracking` without
any filtering against `KnowsLocationIDs`. -/
def part006TrackingStage (storyLocations : List Location) (a : Agent)
    (evidenceCandidates : List GoStr) (reply : GoStr) :
    Agent × List GoStr × List GoStr :=
  let evs := validateRevealedItems evidenceCandidates a.HoldsEvidenceIDs
  let locs := DetectRevealedLocations storyLocations reply
  (updateAgentTracking a evs locs, evs, locs)

/-- The state of a freshly spawned agent (`SpawnAgentWithCharacter`,
`part_009` lines 44-72): capability lists from story data, empty reveal
maps. -/
def spawnedAgent (personality : GoStr) (evidenceIDs locationIDs : List GoStr) : Agent :=
  { Personality := personality
    HoldsEvidenceIDs := evidenceIDs
    KnowsLocationIDs := locationIDs
    RevealedEvidenceIDs := []
    RevealedLocationIDs := [] }

/-- The Agent invariant of spec §8: revealed IDs are a subset of the
capability lists. -/
def AgentInvariant (a : Agent) : Prop :=
  (∀ id ∈ a.RevealedEvidenceIDs, id ∈ a.HoldsEvidenceIDs) ∧
  (∀ id ∈ a.RevealedLocationIDs, id ∈ a.KnowsLocationIDs)

/-! ## Context augmentation and the blank-message guard
(`handlers/message.go` lines 1521-1570) -/

/-- The errors the message handler can reject a request with before reaching
the generator. -/
inductive HandlerError where
  | emptyInput
deriving DecidableEq, Repr

/-- Context augmentation (`handlers/message.go` lines 1521-1559): prefix the
location-context marker when the supplied location ID resolved to a story
location, then append the evidence-presentation block when the presented
evidence resolved to a non-empty list of evidence items. -/
def augmentUserMessage (message : GoStr) (locationDetails : Option Location)
    (evidenceDetails : List Evidence) : GoStr :=
  let m :=
    match locationDetails with
    | some loc =>
      "[CURRENT LOCATION: ".toList ++ loc.LocationName ++ " - ".toList ++
        loc.VisualDescription ++ "]\n\n".toList ++ message
    | none => message
  if evidenceDetails.isEmpty then m
  else
    m ++ "\n\n[USER IS PRESENTING THE FOLLOWING EVIDENCE TO YOU]:".toList ++
      (evidenceDetails.map fun evidence =>
        "\n- ".toList ++ evidence.Title ++ ": ".toList ++ evidence.Description ++
          "\n  (Visual: ".toList ++ evidence.VisualDescription ++ ")".toList ++
          (if evidence.ImageURL.isEmpty then []
           else "\n  (Image: ".toList ++ evidence.ImageURL ++ ")".toList)).flatten

/-- The augment-and-guard phase of the current `MessageHandler`
(`handlers/message.go` lines 1521-1570): build the augmented user message,
reject the request with HTTP 400 when it trims to the empty string, and
otherwise append the user turn to the history.  The generator is called only
after this phase returns `ok`. -/
def messageAugmentPhase (history : List GoStr) (message : GoStr)
    (locationDetails : Option Location) (evidenceDetails : List Evidence) :
    Except HandlerError (List GoStr × GoStr) :=
  let userMessage := augmentUserMessage message locationDetails evidenceDetails
  if goTrimSpace userMessage = [] then .error .emptyInput
  else .ok (history ++ [userMessage], userMessage)

/-! ## The durable-log write guard (`db/agent_repository.go` lines 160-197) -/

/-- A document of the `conversations` collection
(`db/models`, `ConversationDocument`). -/
structure ConversationDocument where
  Role : GoStr
  Content : GoStr
  ClientContent : GoStr
  Index : Nat
deriving DecidableEq, Repr

/-- `SaveConversationMessageWithVersions` (`agent_repository.go` lines
160-197), modelled on its decision structure.  `hexOk` is whether the agent
ID parses as an ObjectID and `insertOk` whether the (up to three times
retried) insert succeeds; both checks run only after the empty-message
guard.  The result is the inserted document, `none` for the skip case, or an
error. -/
def SaveConversationMessageWithVersions (hexOk insertOk : Bool)
    (fullContent clientContent role : GoStr) (index : Nat) :
    Except Unit (Option ConversationDocument) :=
  if goTrimSpace fullContent = [] ∧ goTrimSpace clientContent = [] then
    .ok none
  else if !hexOk then .error ()
  else if insertOk then
    .ok (some { Role := role, Content := fullContent,
                ClientContent := clientContent, Index := index })
  else .error ()

/-! ## History reconstruction (`part_009` and `part_011`,
`LoadAgentFromDatabase`) -/

/-- One in-memory history entry (`genai.Content`): its role string and
text. -/
structure HistoryTurn where
  role : GoStr
  text : GoStr
deriving DecidableEq, Repr

/-- The role mapping of the loaders: `"user"` stays a user turn, everything
else is replayed as a model turn. -/
def roleOfDoc (r : GoStr) : GoStr :=
  if r = "user".toList then "user".toList else "model".toList

/-- The system message synthesized for recovered agents (`part_009` lines
241-248). -/
def recoveredSystemMessage (characterName personality : GoStr) : GoStr :=
  "You are ".toList ++ characterName ++ " with personality: ".toList ++
    personality ++
    ".\n\nIMPORTANT: Only provide spoken dialogue - what your character says out loud. Do NOT include action descriptions like \"I sigh\" or narration. Simply speak as your character would speak.\n\nContinue the conversation naturally based on your character. Stay in character and respond as your character would.\n\n[Note: This agent was loaded from database after server restart. Continue conversation based on available history.]".toList

/-- The non-empty persisted turns, replayed in order (`part_009` lines
204-223): a turn whose content trims to the empty string is skipped. -/
def loadedHistory (conversations : List ConversationDocument) : List HistoryTurn :=
  conversations.filterMap fun conv =>
    if goTrimSpace conv.Content = [] then none
    else some ⟨roleOfDoc conv.Role, conv.Content⟩

/-- The `hasSystemMessage` test of `part_009` lines 229-236: the log is
non-empty, some turn was loaded, and the log's first turn is a model-role
turn at index 0. -/
def hasSystemMessage (conversations : List ConversationDocument) : Bool :=
  match conversations with
  | [] => false
  | c0 :: _ =>
    !(loadedHistory conversations).isEmpty &&
      c0.Role = "model".toList && c0.Index = 0

/-- The history built by `part_009`'s `LoadAgentFromDatabase` (lines
196-256): replay the non-empty turns and prepend the synthesized system
message when no recognizable one was loaded (or nothing was loaded at
all). -/
def part009History (characterName personality : GoStr)
    (conversations : List ConversationDocument) : List HistoryTurn :=
  let history := loadedHistory conversations
  if !hasSystemMessage conversations || history.isEmpty then
    ⟨"model".toList, recoveredSystemMessage characterName personality⟩ :: history
  else history

/-- The history built by `part_011`'s `LoadAgentFromDatabase` (lines
156-241).  `regen` is the outcome of the instruction-regeneration branch:
`some prompt` when the story and character were fetched and a fresh system
prompt was constructed, `none` when the fetch or the character lookup failed
(the existing content is then kept).  The regeneration applies only to the
log's first entry when it is a non-empty model-role turn at index 0; no turn
is ever prepended. -/
def part011HistoryAux (regen : Option GoStr) :
    Nat → List ConversationDocument → List HistoryTurn
  | _, [] => []
  | i, conv :: rest =>
    if goTrimSpace conv.Content = [] then part011HistoryAux regen (i + 1) rest
    else
      let role := roleOfDoc conv.Role
      if i = 0 ∧ conv.Role = "model".toList ∧ conv.Index = 0 then
        (match regen with
         | some prompt => (⟨role, prompt⟩ : HistoryTurn)
         | none => ⟨role, conv.Content⟩) :: part011HistoryAux regen (i + 1) rest
      else ⟨role, conv.Content⟩ :: part011HistoryAux regen (i + 1) rest

/-- `part_011` loader entry point. -/
def part011History (regen : Option GoStr)
    (conversations : List ConversationDocument) : List HistoryTurn :=
  part011HistoryAux regen 0 conversations

/-! ## Persisted turn indices across sessions and reconstructions -/

/-- One live session's observable state for index assignment: the in-memory
history and the durable conversation log in insertion order. -/
structure SessionState where
  History : List HistoryTurn
  log : List ConversationDocument
deriving DecidableEq, Repr

/-- State after `SpawnAgentWithCharacter` (`part_009` lines 44-72): the
history holds the single system-prompt turn; nothing is persisted. -/
def spawnSession (systemPrompt : GoStr) : SessionState :=
  ⟨[⟨"model".toList, systemPrompt⟩], []⟩

/-- Append a turn and persist it through the current
`db.SaveConversationMessage` (which forwards to
`SaveConversationMessageWithVersions` with the same content twice, so an
empty-text turn is skipped).  The saved index is `len(History)-1` at append
time (`handlers/message.go` lines 1570-1580, 1713-1723). -/
def appendAndSave (s : SessionState) (role text : GoStr) : SessionState :=
  let hist := s.History ++ [⟨role, text⟩]
  let log :=
    if goTrimSpace text = [] then s.log
    else s.log ++ [⟨role, text, text, hist.length - 1⟩]
  ⟨hist, log⟩

/-- Append a turn and persist it through the original
`db.SaveConversationMessage` (`agent_repository.go` lines 30-58, first
iteration), which inserts whatever content it is given. -/
def appendAndSaveV1 (s : SessionState) (role text : GoStr) : SessionState :=
  let hist := s.History ++ [⟨role, text⟩]
  ⟨hist, s.log ++ [⟨role, text, text, hist.length - 1⟩]⟩

/-- The default line substituted for a blank generator reply
(`handlers/message.go` lines 1709-1712). -/
def emptyReplyFallback : GoStr :=
  "I apologize, but I couldn't formulate a proper response. Could you please rephrase your question?".toList

/-- One request handled by the current `MessageHandler` (`handlers/message.go`
lines 1492-1727), reduced to its history/log effects: a blank augmented
message is rejected before any mutation; otherwise the user turn is appended
and saved, the reply (with the blank-reply substitution) is appended and
saved.  Persistence is assumed to succeed. -/
def turnCycleCurrent (s : SessionState) (userMessage replyRaw : GoStr) : SessionState :=
  if goTrimSpace userMessage = [] then s
  else
    let s1 := appendAndSave s "user".toList userMessage
    let reply := if goTrimSpace replyRaw = [] then emptyReplyFallback else replyRaw
    appendAndSave s1 "model".toList reply

/-- A request under the current handler in which the generator call fails
after the user turn was appended and saved (`handlers/message.go` lines
1609-1622): the handler returns 500 with the user turn already recorded. -/
def turnCycleGenFail (s : SessionState) (userMessage : GoStr) : SessionState :=
  if goTrimSpace userMessage = [] then s
  else appendAndSave s "user".toList userMessage

/-- One request handled by the first `MessageHandler` iteration
(`handlers/message.go` lines 34-197): no blank-message guard, no blank-reply
substitution, and the original unconditional save. -/
def turnCycleV1 (s : SessionState) (userMessage reply : GoStr) : SessionState :=
  appendAndSaveV1 (appendAndSaveV1 s "user".toList userMessage) "model".toList reply

/-- Insert a document into a list sorted by ascending index (the MongoDB
`index` sort of the loaders' `Find`). -/
def insertByIndex (d : ConversationDocument) :
    List ConversationDocument → List ConversationDocument
  | [] => [d]
  | e :: rest =>
    if d.Index ≤ e.Index then d :: e :: rest else e :: insertByIndex d rest

/-- The loaders read the conversation log sorted by ascending index. -/
def sortByIndex : List ConversationDocument → List ConversationDocument
  | [] => []
  | d :: rest => insertByIndex d (sortByIndex rest)

/-- Process restart followed by `part_009`'s `LoadAgentFromDatabase`: the
in-memory history is rebuilt from the durable log (sorted by index); the log
itself is unchanged. -/
def reconstruct009 (characterName personality : GoStr) (s : SessionState) :
    SessionState :=
  ⟨part009History characterName personality (sortByIndex s.log), s.log⟩

/-- The index arguments passed to the save calls, in the order the saves were
issued. -/
def persistedIndices (s : SessionState) : List Nat :=
  s.log.map (·.Index)

/-- The operations a session trace is built from. -/
inductive SessionOp where
  | turn (userMessage replyRaw : GoStr)
  | genFail (userMessage : GoStr)
  | reconstruct (characterName personality : GoStr)

/-- Apply one session operation. -/
def applySessionOp (s : SessionState) : SessionOp → SessionState
  | .turn m r => turnCycleCurrent s m r
  | .genFail m => turnCycleGenFail s m
  | .reconstruct n p => reconstruct009 n p s

/-! ## Helper lemmas -/

theorem mem_of_mem_foldl_mapSetTrue (l : List GoStr) (m : List GoStr) (x : GoStr)
    (h : x ∈ l.foldl mapSetTrue m) : x ∈ m ∨ x ∈ l := by
  induction l generalizing m with
  | nil => exact Or.inl h
  | cons k t ih =>
    rw [List.foldl_cons] at h
    rcases ih (mapSetTrue m k) h with h1 | h1
    · unfold mapSetTrue at h1
      split at h1
      · exact Or.inl h1
      · rcases List.mem_append.mp h1 with h2 | h2
        · exact Or.inl h2
        · have hx : x = k := List.mem_singleton.mp h2
          exact Or.inr (hx ▸ List.mem_cons_self k t)
    · exact Or.inr (List.mem_cons_of_mem k h1)

theorem mem_allowed_of_mem_validate (revealed allowed : List GoStr) (id : GoStr)
    (h : id ∈ validateRevealedItems revealed allowed) : id ∈ allowed := by
  unfold validateRevealedItems at h
  have := (List.mem_filter.mp h).2
  simpa using this

/-! ## The claims -/

/-- C2: `validateRevealedItems` keeps only members of `allowed` and preserves
the relative order of `candidates` (the output is a sublist of the
candidates); the deduplication part of the claim is settled separately. -/
theorem c2_validator_subset_order_preserving (revealed allowed : List GoStr) :
    (∀ id ∈ validateRevealedItems revealed allowed, id ∈ allowed) ∧
    (validateRevealedItems revealed allowed).Sublist revealed := by
  constructor
  · exact fun id h => mem_allowed_of_mem_validate revealed allowed id h
  · exact List.filter_sublist revealed

/-- C2 counterexample: on a candidate list repeating an allowed ID,
`validateRevealedItems` keeps both copies — the output is not deduplicated,
contrary to the claim. -/
theorem c2_validator_duplicate_counterexample :
    validateRevealedItems ["ev_1".toList, "ev_1".toList] ["ev_1".toList]
        = ["ev_1".toList, "ev_1".toList] ∧
    ¬ (validateRevealedItems ["ev_1".toList, "ev_1".toList] ["ev_1".toList]).Nodup := by
  decide

/-- C4: the location-reveal detector meets the cited test contract on the
test story: a granting phrase plus the location name yields the Secret Lab's
ID, a bare mention of the engine room yields nothing, and an explicit denial
about the secret lab yields nothing. -/
theorem c4_detector_test_contract :
    "loc_1".toList ∈ DetectRevealedLocations mockLocations
        "Meet me at the secret lab tonight.".toList ∧
    DetectRevealedLocations mockLocations
        "I heard something about the engine room, but I don't know where it is.".toList
        = [] ∧
    DetectRevealedLocations mockLocations
        "I can't tell you where the secret lab is.".toList = [] := by
  decide

/-- C5: when both the primary parse and the retry fail, the pipeline returns
a successful response whose reply is the personality-keyed canned line with
empty reveal lists — "nervous" maps to the stammering apology, "arrogant"
(without "nervous") to the dismissive line, "professional" (without the
previous two) to the formal apology, and any other personality to the
neutral line; a raw parse error is never surfaced. -/
theorem c5_personality_fallback (a : Agent) :
    (goContains a.Personality "nervous".toList = true →
      parseWithRetryStage a none none =
        ⟨"I-I'm sorry, I'm having trouble understanding... Could you repeat that?".toList,
          [], []⟩) ∧
    (goContains (goToLower a.Personality) "nervous".toList = false →
      goContains a.Personality "arrogant".toList = true →
      parseWithRetryStage a none none =
        ⟨"Speak clearly. I don't have time for your mumbling.".toList, [], []⟩) ∧
    (goContains (goToLower a.Personality) "nervous".toList = false →
      goContains (goToLower a.Personality) "arrogant".toList = false →
      goContains a.Personality "professional".toList = true →
      parseWithRetryStage a none none =
        ⟨"I apologize, could you please rephrase your question?".toList, [], []⟩) ∧
    (goContains (goToLower a.Personality) "nervous".toList = false →
      goContains (goToLower a.Personality) "arrogant".toList = false →
      goContains (goToLower a.Personality) "professional".toList = false →
      parseWithRetryStage a none none =
        ⟨"I'm having trouble understanding. Could you rephrase that?".toList, [], []⟩) := by
  refine ⟨fun h1 => ?_, fun h1 h2 => ?_, fun h1 h2 h3 => ?_, fun h1 h2 h3 => ?_⟩
  all_goals simp only [parseWithRetryStage, generateFallbackResponse]
  · have h1' : goContains (goToLower a.Personality) "nervous".toList = true :=
      goContains_toLower _ _ h1
    rw [h1']
    simp
  · have h2' : goContains (goToLower a.Personality) "arrogant".toList = true :=
      goContains_toLower _ _ h2
    rw [h1, h2']
    simp
  · have h3' : goContains (goToLower a.Personality) "professional".toList = true :=
      goContains_toLower _ _ h3
    rw [h1, h2, h3']
    simp
  · rw [h1, h2, h3]
    simp

/-- C7: the message handler rejects a request exactly when the augmented
user message trims to the empty string — the rejection is the 400
`emptyInput` error issued before the user turn is appended and before the
generator is reached, and a non-blank augmented message is never rejected by
this guard. -/
theorem c7_empty_message_guard (history : List GoStr) (message : GoStr)
    (locationDetails : Option Location) (evidenceDetails : List Evidence) :
    (goTrimSpace (augmentUserMessage message locationDetails evidenceDetails) = [] →
      messageAugmentPhase history message locationDetails evidenceDetails
        = .error .emptyInput) ∧
    (goTrimSpace (augmentUserMessage message locationDetails evidenceDetails) ≠ [] →
      messageAugmentPhase history message locationDetails evidenceDetails
        = .ok (history ++ [augmentUserMessage message locationDetails evidenceDetails],
               augmentUserMessage message locationDetails evidenceDetails)) := by
  constructor
  · intro h
    unfold messageAugmentPhase
    rw [if_pos h]
  · intro h
    unfold messageAugmentPhase
    rw [if_neg h]

/-- C8: validation is idempotent — filtering an already-filtered list against
the same allowed list changes nothing — and recording an already-revealed ID
with `updateAgentTracking` leaves the agent's reveal sets unchanged. -/
theorem c8_validator_tracking_idempotent :
    (∀ revealed allowed : List GoStr,
      validateRevealedItems (validateRevealedItems revealed allowed) allowed
        = validateRevealedItems revealed allowed) ∧
    (∀ (a : Agent) (id : GoStr), a.RevealedEvidenceIDs.contains id →
      updateAgentTracking a [id] [] = a) ∧
    (∀ (a : Agent) (id : GoStr), a.RevealedLocationIDs.contains id →
      updateAgentTracking a [] [id] = a) := by
  refine ⟨fun revealed allowed => ?_, fun a id h => ?_, fun a id h => ?_⟩
  · unfold validateRevealedItems
    rw [List.filter_filter]
    exact List.filter_congr fun x _ => Bool.and_self _
  · have h' : id ∈ a.RevealedEvidenceIDs := by simpa using h
    simp [updateAgentTracking, mapSetTrue, h']
  · have h' : id ∈ a.RevealedLocationIDs := by simpa using h
    simp [updateAgentTracking, mapSetTrue, h']

/-- C9: `SaveConversationMessageWithVersions` inserts nothing and reports
success whenever both the full and the client content trim to the empty
string, for every agent-ID parse outcome and insert outcome — an empty-text
turn is never appended to the conversation log. -/
theorem c9_empty_turn_never_inserted (hexOk insertOk : Bool)
    (fullContent clientContent role : GoStr) (index : Nat)
    (hFull : goTrimSpace fullContent = []) (hClient : goTrimSpace clientContent = []) :
    SaveConversationMessageWithVersions hexOk insertOk fullContent clientContent role index
      = .ok none := by
  unfold SaveConversationMessageWithVersions
  rw [if_pos ⟨hFull, hClient⟩]

/-- C9 witness: the guard at a concrete call — whitespace-only contents with
a failing ID parse and a failing insert still produce a clean skip. -/
theorem c9_empty_turn_witness :
    SaveConversationMessageWithVersions false false "  ".toList "".toList
        "user".toList 3 = .ok none :=
  c9_empty_turn_never_inserted false false "  ".toList "".toList "user".toList 3
    (by decide) (by decide)

/-- Running the validation-and-tracking stage of the current pipeline over a
whole conversation: each element of `turns` is one turn's pair of candidate
evidence and location ID lists as reported by the generator. -/
def runValidatedTurns (a : Agent) (turns : List (List GoStr × List GoStr)) : Agent :=
  turns.foldl (fun a c => (validatedTrackingStage a c.1 c.2).1) a

theorem agentInvariant_validatedTrackingStage (a : Agent)
    (evidenceIDs locationIDs : List GoStr) (h : AgentInvariant a) :
    AgentInvariant (validatedTrackingStage a evidenceIDs locationIDs).1 := by
  obtain ⟨hE, hL⟩ := h
  constructor
  · intro id hid
    simp only [validatedTrackingStage, updateAgentTracking] at hid ⊢
    rcases mem_of_mem_foldl_mapSetTrue _ _ _ hid with h1 | h1
    · exact hE id h1
    · exact mem_allowed_of_mem_validate _ _ _ h1
  · intro id hid
    simp only [validatedTrackingStage, updateAgentTracking] at hid ⊢
    rcases mem_of_mem_foldl_mapSetTrue _ _ _ hid with h1 | h1
    · exact hL id h1
    · exact mem_allowed_of_mem_validate _ _ _ h1

theorem agentInvariant_runValidatedTurns (turns : List (List GoStr × List GoStr)) :
    ∀ (a : Agent), AgentInvariant a → AgentInvariant (runValidatedTurns a turns) := by
  intro a ha
  unfold runValidatedTurns
  induction turns generalizing a with
  | nil => exact ha
  | cons t rest ih =>
    rw [List.foldl_cons]
    exact ih _ (agentInvariant_validatedTrackingStage _ _ _ ha)

theorem agentInvariant_spawnedAgent (personality : GoStr)
    (evidenceIDs locationIDs : List GoStr) :
    AgentInvariant (spawnedAgent personality evidenceIDs locationIDs) := by
  constructor
  · intro id hid
    simp [spawnedAgent] at hid
  · intro id hid
    simp [spawnedAgent] at hid

/-- C1: in the pipeline that validates both reveal lists before tracking
(`handlers/message.go` lines 1700-1703), the invariant
`RevealedEvidenceIDs ⊆ HoldsEvidenceIDs` and
`RevealedLocationIDs ⊆ KnowsLocationIDs` holds after spawn and after any
number of turns.  The claim's further assertion — that this also holds in
the `part_006` iteration where the location detector's output is tracked
unvalidated — is refuted separately. -/
theorem c1_invariant_validated_pipeline (personality : GoStr)
    (evidenceIDs locationIDs : List GoStr)
    (turns : List (List GoStr × List GoStr)) :
    AgentInvariant (runValidatedTurns
      (spawnedAgent personality evidenceIDs locationIDs) turns) :=
  agentInvariant_runValidatedTurns turns _
    (agentInvariant_spawnedAgent personality evidenceIDs locationIDs)

/-- C1 counterexample: under the `part_006` pipeline iteration, a reply that
grants access to the Secret Lab makes `updateAgentTracking` add `loc_1` to
`RevealedLocationIDs` although the agent's `KnowsLocationIDs` is empty — the
added ID is not a member of the agent's known locations, refuting the claim
for that iteration. -/
theorem c1_part006_detector_counterexample :
    "loc_1".toList ∈ ((part006TrackingStage mockLocations
        (spawnedAgent [] [] []) [] "Meet me at the secret lab tonight.".toList).1).RevealedLocationIDs ∧
    "loc_1".toList ∉ (spawnedAgent ([] : GoStr) [] []).KnowsLocationIDs := by
  decide

/-- The context-augmented message always contains a left bracket when a
location detail or a presented-evidence item contributed to it. -/
theorem lbracket_mem_augment (message : GoStr) (locationDetails : Option Location)
    (evidenceDetails : List Evidence)
    (h : locationDetails.isSome = true ∨ evidenceDetails ≠ []) :
    '[' ∈ augmentUserMessage message locationDetails evidenceDetails := by
  have hloc : '[' ∈ ("[CURRENT LOCATION: ".toList : GoStr) := by decide
  have hev : '[' ∈
      ("\n\n[USER IS PRESENTING THE FOLLOWING EVIDENCE TO YOU]:".toList : GoStr) := by
    decide
  unfold augmentUserMessage
  rcases locationDetails with _ | loc
  · rcases h with h | h
    · exact absurd h (by simp)
    · have he : evidenceDetails.isEmpty = false := by
        simpa [List.isEmpty_iff] using h
      rw [he]
      simp only [Bool.false_eq_true, if_false]
      exact List.mem_append_left _ (List.mem_append_right _ hev)
  · by_cases he : evidenceDetails.isEmpty
    · rw [he]
      simp only [if_true]
      exact List.mem_append_left _ (List.mem_append_left _
        (List.mem_append_left _ (List.mem_append_left _
          (List.mem_append_left _ hloc))))
    · rw [Bool.not_eq_true] at he
      rw [he]
      simp only [Bool.false_eq_true, if_false]
      exact List.mem_append_left _ (List.mem_append_left _
        (List.mem_append_left _ (List.mem_append_left _
          (List.mem_append_left _ (List.mem_append_left _
            (List.mem_append_left _ hloc))))))

/-- C10: the blank-message guard tests the augmented message, not the raw
client message — a whitespace-only message whose location ID resolved to a
story location, or whose presented evidence resolved to evidence items,
passes the guard (the augmentation prefix is non-blank) and the request
proceeds towards the generator with the user turn appended. -/
theorem c10_blank_message_with_context_proceeds (history : List GoStr)
    (message : GoStr) (locationDetails : Option Location)
    (evidenceDetails : List Evidence)
    (_hblank : ∀ c ∈ message, isGoSpace c = true)
    (hctx : locationDetails.isSome = true ∨ evidenceDetails ≠ []) :
    messageAugmentPhase history message locationDetails evidenceDetails
      = .ok (history ++ [augmentUserMessage message locationDetails evidenceDetails],
             augmentUserMessage message locationDetails evidenceDetails) := by
  have hmem := lbracket_mem_augment message locationDetails evidenceDetails hctx
  have hne : goTrimSpace (augmentUserMessage message locationDetails evidenceDetails) ≠ [] :=
    goTrimSpace_ne_nil _ '[' hmem (by decide)
  unfold messageAugmentPhase
  rw [if_neg hne]

/-- C10 witness: a whitespace-only message with a resolved location detail is
not rejected. -/
theorem c10_blank_message_witness :
    messageAugmentPhase [] "   ".toList
        (some ⟨[], "Secret Lab".toList, "A hidden laboratory".toList⟩) []
      = .ok ([] ++ [augmentUserMessage "   ".toList
              (some ⟨[], "Secret Lab".toList, "A hidden laboratory".toList⟩) []],
             augmentUserMessage "   ".toList
              (some ⟨[], "Secret Lab".toList, "A hidden laboratory".toList⟩) []) :=
  c10_blank_message_with_context_proceeds [] "   ".toList
    (some ⟨[], "Secret Lab".toList, "A hidden laboratory".toList⟩) []
    (by decide) (Or.inl rfl)

/-- C6 amended: `part_009`'s loader does synthesize and prepend the generic
continuation instruction whenever the log's first turn is missing or is not
a model-role turn at index 0, so the history it returns begins with that
grounding instruction turn. -/
theorem c6_part009_prepends_instruction (characterName personality : GoStr)
    (conversations : List ConversationDocument)
    (h : ∀ c0, conversations.head? = some c0 →
      ¬(c0.Role = "model".toList ∧ c0.Index = 0)) :
    part009History characterName personality conversations
      = ⟨"model".toList, recoveredSystemMessage characterName personality⟩ ::
          loadedHistory conversations := by
  have hsys : hasSystemMessage conversations = false := by
    cases conversations with
    | nil => rfl
    | cons c0 rest =>
      have hc := h c0 rfl
      simp only [hasSystemMessage]
      by_cases hr : c0.Role = "model".toList
      · by_cases hi : c0.Index = 0
        · exact absurd ⟨hr, hi⟩ hc
        · rw [decide_eq_false hi]
          simp
      · rw [decide_eq_false hr]
        simp
  unfold part009History
  rw [hsys]
  simp

/-- C6 witness: a log whose only turn is a user turn at index 1 (index 0
missing) gets the synthesized instruction turn prepended by `part_009`'s
loader. -/
theorem c6_part009_prepend_witness :
    part009History "A".toList "calm".toList
        [⟨"user".toList, "hi".toList, "hi".toList, 1⟩]
      = ⟨"model".toList, recoveredSystemMessage "A".toList "calm".toList⟩ ::
          loadedHistory [⟨"user".toList, "hi".toList, "hi".toList, 1⟩] :=
  c6_part009_prepends_instruction "A".toList "calm".toList
    [⟨"user".toList, "hi".toList, "hi".toList, 1⟩]
    (by intro c0 hc0; simp at hc0; subst hc0; decide)

theorem loadedHistory_eq_map (conversations : List ConversationDocument)
    (h : ∀ d ∈ conversations, goTrimSpace d.Content ≠ []) :
    loadedHistory conversations
      = conversations.map fun d => ⟨roleOfDoc d.Role, d.Content⟩ := by
  induction conversations with
  | nil => rfl
  | cons d rest ih =>
    have hd := h d (List.mem_cons_self d rest)
    have hrest := ih fun e he => h e (List.mem_cons_of_mem _ he)
    simp only [loadedHistory, List.filterMap_cons] at hrest ⊢
    rw [if_neg hd]
    rw [hrest, List.map_cons]

theorem insertByIndex_eq_cons (d : ConversationDocument)
    (l : List ConversationDocument) (h : ∀ e ∈ l, d.Index ≤ e.Index) :
    insertByIndex d l = d :: l := by
  cases l with
  | nil => rfl
  | cons e rest =>
    simp only [insertByIndex]
    rw [if_pos (h e (List.mem_cons_self e rest))]

theorem sortByIndex_eq_self (l : List ConversationDocument)
    (h : List.Pairwise (fun a b => a.Index < b.Index) l) : sortByIndex l = l := by
  induction l with
  | nil => rfl
  | cons d rest ih =>
    rw [List.pairwise_cons] at h
    simp only [sortByIndex]
    rw [ih h.2, insertByIndex_eq_cons d rest fun e he => Nat.le_of_lt (h.1 e he)]

/-- The invariant tying the durable log to the in-memory history: the
persisted indices are exactly `1, 2, …, len(History)-1` (index 0 is the
in-memory instruction turn, which no save call ever receives), and every
persisted turn has non-blank content. -/
def SessionInv (s : SessionState) : Prop :=
  1 ≤ s.History.length ∧
  persistedIndices s = List.range' 1 (s.History.length - 1) ∧
  ∀ d ∈ s.log, goTrimSpace d.Content ≠ []

theorem sessionInv_spawn (systemPrompt : GoStr) :
    SessionInv (spawnSession systemPrompt) := by
  refine ⟨by simp [spawnSession], ?_, by simp [spawnSession]⟩
  simp [spawnSession, persistedIndices]

theorem sessionInv_appendAndSave (s : SessionState) (role text : GoStr)
    (hs : SessionInv s) (ht : goTrimSpace text ≠ []) :
    SessionInv (appendAndSave s role text) := by
  obtain ⟨h1, h2, h3⟩ := hs
  unfold persistedIndices at h2
  simp only [appendAndSave]
  rw [if_neg ht]
  refine ⟨by simp, ?_, ?_⟩
  · unfold persistedIndices
    simp only [List.map_append, List.map_cons, List.map_nil, List.length_append,
      List.length_cons, List.length_nil, Nat.add_sub_cancel]
    rw [h2]
    have e1 : 1 + (s.History.length - 1) = s.History.length := by omega
    have e2 : s.History.length - 1 + 1 = s.History.length := by omega
    have h4 := List.range'_1_concat 1 (s.History.length - 1)
    rw [e1, e2] at h4
    exact h4.symm
  · intro d hd
    rcases List.mem_append.mp hd with h | h
    · exact h3 d h
    · rw [List.mem_singleton.mp h]
      exact ht

theorem sessionInv_turnCycleCurrent (s : SessionState) (userMessage replyRaw : GoStr)
    (hs : SessionInv s) : SessionInv (turnCycleCurrent s userMessage replyRaw) := by
  unfold turnCycleCurrent
  by_cases hm : goTrimSpace userMessage = []
  · rw [if_pos hm]
    exact hs
  · rw [if_neg hm]
    apply sessionInv_appendAndSave _ _ _ (sessionInv_appendAndSave _ _ _ hs hm)
    by_cases hr : goTrimSpace replyRaw = []
    · rw [if_pos hr]
      decide
    · rw [if_neg hr]
      exact hr

theorem sessionInv_turnCycleGenFail (s : SessionState) (userMessage : GoStr)
    (hs : SessionInv s) : SessionInv (turnCycleGenFail s userMessage) := by
  unfold turnCycleGenFail
  by_cases hm : goTrimSpace userMessage = []
  · rw [if_pos hm]
    exact hs
  · rw [if_neg hm]
    exact sessionInv_appendAndSave _ _ _ hs hm

theorem sessionInv_reconstruct009 (characterName personality : GoStr)
    (s : SessionState) (hs : SessionInv s) :
    SessionInv (reconstruct009 characterName personality s) := by
  obtain ⟨h1, h2, h3⟩ := hs
  unfold persistedIndices at h2
  have hpair : List.Pairwise (fun a b => a.Index < b.Index) s.log := by
    have hp := List.pairwise_lt_range' 1 (s.History.length - 1)
    rw [← h2] at hp
    exact (List.pairwise_map).mp hp
  have hsort : sortByIndex s.log = s.log := sortByIndex_eq_self _ hpair
  have hload := loadedHistory_eq_map s.log h3
  have hlen : (loadedHistory s.log).length = s.History.length - 1 := by
    rw [hload, List.length_map]
    have := congrArg List.length h2
    simpa using this
  have hsys : hasSystemMessage s.log = false := by
    cases hlog : s.log with
    | nil => rfl
    | cons d rest =>
      have hidx : d.Index = 1 := by
        rw [hlog] at h2
        have hll := congrArg List.length h2
        simp at hll
        have hl2 : s.History.length - 1 = rest.length + 1 := by omega
        rw [hl2, List.range'_succ] at h2
        have := List.head_eq_of_cons_eq h2
        simpa using this
      simp only [hasSystemMessage]
      rw [decide_eq_false (by omega : ¬ d.Index = 0)]
      simp
  have hhist : (reconstruct009 characterName personality s).History
      = ⟨"model".toList, recoveredSystemMessage characterName personality⟩ ::
          loadedHistory s.log := by
    simp only [reconstruct009]
    rw [hsort]
    unfold part009History
    rw [hsys]
    simp
  refine ⟨?_, ?_, h3⟩
  · rw [hhist]
    simp
  · show persistedIndices s = _
    rw [hhist]
    simp only [List.length_cons, hlen, Nat.add_sub_cancel]
    exact h2

/-- One session trace: spawn, then the given operations on the live agent. -/
def runSession (systemPrompt : GoStr) (ops : List SessionOp) : SessionState :=
  ops.foldl applySessionOp (spawnSession systemPrompt)

theorem sessionInv_applySessionOp (s : SessionState) (op : SessionOp)
    (hs : SessionInv s) : SessionInv (applySessionOp s op) := by
  cases op with
  | turn m r => exact sessionInv_turnCycleCurrent s m r hs
  | genFail m => exact sessionInv_turnCycleGenFail s m hs
  | reconstruct n p => exact sessionInv_reconstruct009 n p s hs

theorem sessionInv_runSession (systemPrompt : GoStr) (ops : List SessionOp) :
    SessionInv (runSession systemPrompt ops) := by
  unfold runSession
  suffices h : ∀ s, SessionInv s → SessionInv (ops.foldl applySessionOp s) from
    h _ (sessionInv_spawn systemPrompt)
  intro s hs
  induction ops generalizing s with
  | nil => exact hs
  | cons op rest ih =>
    rw [List.foldl_cons]
    exact ih _ (sessionInv_applySessionOp s op hs)

/-- C3 amended: over any trace of current-pipeline requests, generator
failures and `part_009` reconstructions, the indices passed to the save calls
are exactly `1, 2, …, len(History)-1` — strictly increasing, consecutive,
never duplicated or skipped, but starting at 1, not 0: the instruction turn
occupies in-memory index 0 and is never itself saved.  (The consecutive
continuation across reconstruction relies on every logged turn being
non-blank, which the current pipeline guarantees; the separate counterexample
shows a blank turn written by the first pipeline iteration breaks it.) -/
theorem c3_persisted_indices_consecutive (systemPrompt : GoStr)
    (ops : List SessionOp) :
    persistedIndices (runSession systemPrompt ops)
      = List.range' 1 ((runSession systemPrompt ops).History.length - 1) ∧
    (persistedIndices (runSession systemPrompt ops)).Pairwise (· < ·) := by
  obtain ⟨h1, h2, h3⟩ := sessionInv_runSession systemPrompt ops
  refine ⟨h2, ?_⟩
  rw [h2]
  exact List.pairwise_lt_range' _ _

/-- C3 counterexample: the first pipeline iteration persists a blank reply at
index 2; after a restart, `part_009`'s reconstruction skips that blank turn
(and prepends a fresh instruction), so the next request saves its user turn
at index 2 again — the persisted index sequence `[1, 2, 2, 3]` duplicates an
index, is not strictly increasing, and does not start at 0, refuting the
claim. -/
theorem c3_reconstruction_duplicate_index_counterexample :
    persistedIndices
        (turnCycleCurrent
          (reconstruct009 "A".toList "calm".toList
            (turnCycleV1 (spawnSession "sys".toList) "hi".toList []))
          "hello".toList "fine".toList) = [1, 2, 2, 3] ∧
    ¬ (persistedIndices
        (turnCycleCurrent
          (reconstruct009 "A".toList "calm".toList
            (turnCycleV1 (spawnSession "sys".toList) "hi".toList []))
          "hello".toList "fine".toList)).Pairwise (· < ·) := by
  decide

/-- C6 counterexample: `part_011`'s loader (the iteration the claim also
cites) does not prepend anything — reconstructing from a log whose turn at
index 0 is missing returns a history that begins with the user turn, not
with a grounding instruction turn. -/
theorem c6_part011_no_prepend_counterexample :
    part011History none [⟨"user".toList, "hi".toList, "hi".toList, 1⟩]
      = [⟨"user".toList, "hi".toList⟩] ∧
    (part011History none [⟨"user".toList, "hi".toList, "hi".toList, 1⟩]).head?
      = some ⟨"user".toList, "hi".toList⟩ ∧
    ("user".toList : GoStr) ≠ "model".toList := by
  decide
